import Mathlib

set_option linter.unusedVariables false

/-!
Verification of the nutrition-tracker web application's core business logic:
daily nutrient aggregation, goal-progress percentages, the weight forecast,
the OpenFoodFacts catalog client (search, by-code fetch, caching) and the
food-import flow.  Python sources are shallowly embedded: dates are day
numbers (`ℤ`), decimals/floats are exact rationals (`ℚ`), fallible code
returns `Option`/`Except`.
-/

namespace NutritionTracker

/-! ## Python string primitives

Python `str.strip`, `str.lower` and slicing `[:n]`, modelled over the
character list of a `String` so that concrete instances reduce by `decide`.
-/

/-- Python `str.strip()`: drop leading and trailing whitespace. -/
def pyStrip (s : String) : String :=
  ⟨((s.data.dropWhile Char.isWhitespace).reverse.dropWhile Char.isWhitespace).reverse⟩

/-- Python `str.lower()` (ASCII letters, which is all the code relies on). -/
def pyLower (s : String) : String :=
  ⟨s.data.map Char.toLower⟩

/-- Python slicing `s[:n]`. -/
def pyTake (s : String) (n : ℕ) : String :=
  ⟨s.data.take n⟩

/-! ## Python numeric primitives -/

/-- Python `int()` applied to a number: truncation toward zero. -/
def pyInt (x : ℚ) : ℤ :=
  if 0 ≤ x then ⌊x⌋ else ⌈x⌉

/-- Round half to even to an integer, as Python `round` does. -/
def roundHalfEven (x : ℚ) : ℤ :=
  if x - (⌊x⌋ : ℚ) < 1/2 then ⌊x⌋
  else if 1/2 < x - (⌊x⌋ : ℚ) then ⌊x⌋ + 1
  else if ⌊x⌋ % 2 = 0 then ⌊x⌋ else ⌊x⌋ + 1

theorem roundHalfEven_of_frac_lt (x : ℚ) (n : ℤ) (hfl : ⌊x⌋ = n)
    (h : x - (n : ℚ) < 1/2) : roundHalfEven x = n := by
  rw [roundHalfEven, hfl, if_pos h]

theorem roundHalfEven_of_frac_gt (x : ℚ) (n : ℤ) (hfl : ⌊x⌋ = n)
    (h : 1/2 < x - (n : ℚ)) : roundHalfEven x = n + 1 := by
  rw [roundHalfEven, hfl, if_neg (by linarith), if_pos h]

/-- Python `round(x, nd)` for `nd ≥ 0`: half-to-even at `nd` decimal places. -/
def pyRound (nd : ℕ) (x : ℚ) : ℚ :=
  (roundHalfEven (x * 10 ^ nd) : ℚ) / 10 ^ nd

/-! ## Goal Progress Evaluator

`pct` embeds `views.dashboard.pct` (src/nutrition/views.py lines 114-121):
missing target is read as `0.0`, a non-positive target yields `None`, and
otherwise the ratio is scaled to a percentage, clamped into `[0, 100]` and
truncated by Python `int()`.
-/

/-- `views.dashboard.pct`: percentage of goal reached, clamped and truncated. -/
def pct (value : ℚ) (target : Option ℚ) : Option ℤ :=
  let tval : ℚ := target.getD 0
  if tval ≤ 0 then none
  else some (pyInt (max 0 (min 100 (value / tval * 100))))

/-- Truncation toward zero commutes with clamping into the integer
    interval `[0, 100]`. -/
theorem pyInt_clamp (r : ℚ) :
    pyInt (max 0 (min 100 r)) = max 0 (min 100 (pyInt r)) := by
  rcases le_or_lt 0 r with h0 | h0
  · rcases le_or_lt r 100 with h100 | h100
    · have hmin : min (100 : ℚ) r = r := min_eq_right h100
      have hmax : max (0 : ℚ) r = r := max_eq_right h0
      have hfl0 : (0 : ℤ) ≤ ⌊r⌋ := by
        have := Int.floor_le_floor (α := ℚ) h0
        simpa using this
      have hfl100 : ⌊r⌋ ≤ 100 := by
        have := Int.floor_le_floor (α := ℚ) h100
        simpa using this
      simp [pyInt, hmin, hmax, h0, min_eq_right hfl100, max_eq_right hfl0]
    · have hmin : min (100 : ℚ) r = 100 := min_eq_left (le_of_lt h100)
      have hfl100 : (100 : ℤ) ≤ ⌊r⌋ := by
        have := Int.floor_le_floor (α := ℚ) (le_of_lt h100)
        simpa using this
      have h0' : (0 : ℚ) ≤ 100 := by norm_num
      have : pyInt r = ⌊r⌋ := by simp [pyInt, h0]
      rw [hmin, max_eq_right h0', this, min_eq_left hfl100]
      simp [pyInt]
  · have hr100 : r ≤ 100 := le_of_lt (lt_trans h0 (by norm_num))
    have hmin : min (100 : ℚ) r = r := min_eq_right hr100
    have hmax : max (0 : ℚ) r = 0 := max_eq_left (le_of_lt h0)
    have hceil : ⌈r⌉ ≤ 0 := Int.ceil_le.mpr (by simpa using le_of_lt h0)
    have hpy : pyInt r = ⌈r⌉ := by simp [pyInt, not_le.mpr h0]
    rw [hmin, hmax, hpy, min_eq_right (le_trans hceil (by norm_num)),
      max_eq_left hceil]
    simp [pyInt]

/-- C1: the Goal Progress Evaluator returns `none` when the target is absent
    or non-positive, otherwise `clamp(round_down(value / target × 100), 0, 100)`
    (truncation toward zero, then clamping); the result never leaves
    `[0, 100]`, and `value = 50`, `target = 2000` yields `2`. -/
theorem pct_spec (value : ℚ) (hv : 0 ≤ value) :
    pct value none = none
    ∧ (∀ t : ℚ, t ≤ 0 → pct value (some t) = none)
    ∧ (∀ t : ℚ, 0 < t →
        pct value (some t) = some (max 0 (min 100 (pyInt (value / t * 100)))))
    ∧ (∀ target n, pct value target = some n → 0 ≤ n ∧ n ≤ 100)
    ∧ pct 50 (some 2000) = some 2 := by
  refine ⟨?_, ?_, ?_, ?_, ?_⟩
  · simp [pct]
  · intro t ht
    simp [pct, ht]
  · intro t ht
    simp [pct, not_le.mpr ht, pyInt_clamp]
  · intro target n hn
    match target with
    | none => simp [pct] at hn
    | some t =>
      by_cases ht : t ≤ 0
      · simp [pct, ht] at hn
      · rw [pct] at hn
        simp only [Option.getD_some, if_neg ht, Option.some.injEq] at hn
        rw [pyInt_clamp] at hn
        constructor
        · exact hn ▸ le_max_left 0 _
        · exact hn ▸ max_le (by norm_num) (min_le_left _ _)
  · have hx : (50 : ℚ) / 2000 * 100 = 5 / 2 := by norm_num
    have hmin : min (100 : ℚ) (5 / 2) = 5 / 2 := by
      rw [min_eq_right]; norm_num
    have hmax : max (0 : ℚ) (5 / 2) = 5 / 2 := by
      rw [max_eq_right]; norm_num
    have hfl : pyInt (5 / 2 : ℚ) = 2 := by
      rw [pyInt, if_pos (by norm_num)]
      rw [Int.floor_eq_iff]
      norm_num
    rw [pct]
    simp only [Option.getD_some]
    rw [if_neg (by norm_num), hx, hmin, hmax, hfl]

/-- Witness for C1 at `value = 50`. -/
theorem pct_spec_witness :
    (0 : ℚ) ≤ 50 ∧ pct 50 (some 2000) = some 2 :=
  ⟨by norm_num, (pct_spec 50 (by norm_num)).2.2.2.2⟩

/-! ## Data model for meal logging

`FoodItem` carries per-100g nutrient densities (models.py lines 20-23);
`MealItem` joins a portion in grams to a `FoodItem` through a `Meal` that has
an owning user and a calendar date.  The meal indirection is flattened:
a `MealItemM` carries its meal's user and date directly.
-/

/-- Per-100g nutrient densities of a `FoodItem`. -/
structure FoodItemM where
  kcal100 : ℚ
  protein100 : ℚ
  fat100 : ℚ
  carb100 : ℚ
  deriving DecidableEq, Repr

/-- A `MealItem` together with its `Meal`'s user and date. -/
structure MealItemM where
  userId : ℕ
  day : ℤ
  grams : ℚ
  food : FoodItemM
  deriving DecidableEq, Repr

/-! ## Daily Aggregator

Embeds the dashboard aggregation (views.py lines 62-95): filter the user's
meal items to the date range, annotate each with
`grams × density / 100`, group by meal date and sum, then reindex the
grouped frame against the full day scaffold of the range, filling absent
days with `0.0`.
-/

/-- `MealItem.objects.filter(meal__user=user, meal__date__range=(s, e))`. -/
def itemsInRange (items : List MealItemM) (u : ℕ) (s e : ℤ) : List MealItemM :=
  items.filter fun it => decide (it.userId = u) && decide (s ≤ it.day) && decide (it.day ≤ e)

/-- The annotated nutrient amount `F("grams_f") * F(density) / 100.0`. -/
def scaledAmount (sel : FoodItemM → ℚ) (it : MealItemM) : ℚ :=
  it.grams * sel it.food / 100

/-- Sum of the selected nutrient over the items logged on day `d`. -/
def daySum (items : List MealItemM) (sel : FoodItemM → ℚ) (d : ℤ) : ℚ :=
  ((items.filter fun it => decide (it.day = d)).map (scaledAmount sel)).sum

/-- Insert into an ascending list of days. -/
def insertAsc (d : ℤ) : List ℤ → List ℤ
  | [] => [d]
  | x :: xs => if d ≤ x then d :: x :: xs else x :: insertAsc d xs

/-- Ascending insertion sort on days, modelling `order_by("day")`. -/
def sortAsc : List ℤ → List ℤ
  | [] => []
  | x :: xs => insertAsc x (sortAsc xs)

/-- The SQL `GROUP BY day` with per-day sums, ordered by day:
    `.values("day").annotate(..., Sum(...)).order_by("day")`. -/
def groupedByDay (items : List MealItemM) (sel : FoodItemM → ℚ) : List (ℤ × ℚ) :=
  (sortAsc ((items.map (·.day)).dedup)).map fun d => (d, daySum items sel d)

/-- `pd.date_range(start=s, end=e, freq="D")`, one entry per calendar day. -/
def dateScaffold (s e : ℤ) : List ℤ :=
  (List.range (e - s + 1).toNat).map fun i => s + Int.ofNat i

/-- `df.set_index("day").reindex(all_days).fillna(0.0)`: left-join the grouped
    sums against the scaffold, substituting `0.0` where a day is absent. -/
def reindexZero (grouped : List (ℤ × ℚ)) (days : List ℤ) : List (ℤ × ℚ) :=
  days.map fun d => (d, (grouped.lookup d).getD 0)

/-- The dashboard's daily totals for one nutrient over `[s, e]`. -/
def dailyTotals (items : List MealItemM) (u : ℕ) (s e : ℤ)
    (sel : FoodItemM → ℚ) : List (ℤ × ℚ) :=
  reindexZero (groupedByDay (itemsInRange items u s e) sel) (dateScaffold s e)

theorem mem_insertAsc {a d : ℤ} {l : List ℤ} :
    a ∈ insertAsc d l ↔ a = d ∨ a ∈ l := by
  induction l with
  | nil => simp [insertAsc]
  | cons x xs ih =>
    by_cases h : d ≤ x
    · simp [insertAsc, h]
    · simp [insertAsc, h, ih]
      tauto

theorem mem_sortAsc {a : ℤ} {l : List ℤ} : a ∈ sortAsc l ↔ a ∈ l := by
  induction l with
  | nil => simp [sortAsc]
  | cons x xs ih => simp [sortAsc, mem_insertAsc, ih]

theorem lookup_map_self (ds : List ℤ) (f : ℤ → ℚ) (d : ℤ) :
    (ds.map fun x => (x, f x)).lookup d
      = if d ∈ ds then some (f d) else none := by
  induction ds with
  | nil => simp
  | cons x xs ih =>
    by_cases h : d = x
    · subst h
      simp [List.lookup]
    · simp [List.lookup, beq_false_of_ne h, ih, h]

/-- Looking a day up in the grouped frame and defaulting to `0` yields
    exactly that day's sum (`0` when the day has no items). -/
theorem lookup_groupedByDay (items : List MealItemM) (sel : FoodItemM → ℚ)
    (d : ℤ) :
    ((groupedByDay items sel).lookup d).getD 0 = daySum items sel d := by
  rw [groupedByDay, lookup_map_self]
  by_cases h : d ∈ sortAsc ((items.map (·.day)).dedup)
  · simp [h]
  · rw [if_neg h]
    have hd : ∀ it ∈ items, ¬ it.day = d := by
      intro it hit hday
      exact h (mem_sortAsc.mpr (List.mem_dedup.mpr
        (List.mem_map.mpr ⟨it, hit, hday⟩)))
    have : items.filter (fun it => decide (it.day = d)) = [] := by
      rw [List.filter_eq_nil_iff]
      intro it hit
      simpa using hd it hit
    simp [daySum, this]

/-- C2: over any date range `[s, e]` the Daily Aggregator returns one
    `(date, total)` pair per calendar day, in ascending order with no gaps
    (the `i`-th date is `s + i`), with length equal to the number of days in
    the range regardless of the logged items; each day's total is the sum of
    `grams/100 × density` over that day's items of the user, and a day with
    no items gets `0.0`.  The nutrient selector is arbitrary, so the result
    holds for kcal, protein, fat and carb over the same scaffold. -/
theorem dailyTotals_spec (items : List MealItemM) (u : ℕ) (s e : ℤ)
    (sel : FoodItemM → ℚ) (hse : s ≤ e) :
    (dailyTotals items u s e sel).length = (e - s + 1).toNat
    ∧ (∀ (i : ℕ) (hi : i < (dailyTotals items u s e sel).length),
        (dailyTotals items u s e sel)[i]
          = (s + (i : ℤ),
             (((itemsInRange items u s e).filter
                 fun it => decide (it.day = s + (i : ℤ))).map
               fun it => it.grams / 100 * sel it.food).sum))
    ∧ (∀ (i : ℕ) (hi : i < (dailyTotals items u s e sel).length),
        (∀ it ∈ itemsInRange items u s e, it.day ≠ s + (i : ℤ)) →
          ((dailyTotals items u s e sel)[i]).2 = 0) := by
  have hsel : scaledAmount sel = fun it => it.grams / 100 * sel it.food := by
    funext it
    rw [scaledAmount]
    ring
  have hlen : (dailyTotals items u s e sel).length = (e - s + 1).toNat := by
    simp only [dailyTotals, reindexZero, dateScaffold, List.length_map,
      List.length_range]
  have hget : ∀ (i : ℕ) (hi : i < (dailyTotals items u s e sel).length),
      (dailyTotals items u s e sel)[i]
        = (s + (i : ℤ),
           (((itemsInRange items u s e).filter
               fun it => decide (it.day = s + (i : ℤ))).map
             fun it => it.grams / 100 * sel it.food).sum) := by
    intro i hi
    simp only [dailyTotals, reindexZero, dateScaffold, List.getElem_map,
      List.getElem_range, lookup_groupedByDay, daySum, hsel]
    rfl
  refine ⟨hlen, hget, ?_⟩
  intro i hi hnone
  rw [hget i hi]
  have : (itemsInRange items u s e).filter
      (fun it => decide (it.day = s + (i : ℤ))) = [] := by
    rw [List.filter_eq_nil_iff]
    intro it hit
    simpa using hnone it hit
  rw [this]
  simp

/-- Witness for C2: two items on one day inside a three-day range. -/
theorem dailyTotals_spec_witness :
    (0 : ℤ) ≤ 2
    ∧ (dailyTotals
        [⟨7, 1, 100, ⟨250, 10, 5, 20⟩⟩, ⟨7, 1, 50, ⟨100, 1, 2, 3⟩⟩] 7 0 2
        (fun f => f.kcal100)).length = 3 := by
  refine ⟨by norm_num, ?_⟩
  have h := (dailyTotals_spec
    [⟨7, 1, 100, ⟨250, 10, 5, 20⟩⟩, ⟨7, 1, 50, ⟨100, 1, 2, 3⟩⟩] 7 0 2
    (fun f => f.kcal100) (by norm_num)).1
  rw [h]
  decide

/-! ## Goal rows and `GoalForm.save`

`GoalForm.save` (forms.py lines 228-235) first runs
`Goal.objects.filter(user=user, is_active=True).update(is_active=False)`
and then saves the submitted goal with `is_active = True` for that user.
Only the fields the claim touches are modelled.
-/

/-- A persisted `Goal` row (id, owning user, active flag). -/
structure GoalRow where
  id : ℕ
  userId : ℕ
  isActive : Bool
  deriving DecidableEq, Repr

/-- `Goal.objects.filter(user=u, is_active=True).update(is_active=False)`. -/
def deactivateActive (state : List GoalRow) (u : ℕ) : List GoalRow :=
  state.map fun g =>
    if g.userId = u ∧ g.isActive then { g with isActive := false } else g

/-- `GoalForm.save` on a fresh instance: deactivate the user's active goals,
    then insert the new goal with `is_active = True`. -/
def saveNewGoal (state : List GoalRow) (u : ℕ) (newId : ℕ) : List GoalRow :=
  deactivateActive state u ++ [⟨newId, u, true⟩]

/-- Number of active `Goal` rows a user has in a state. -/
def activeCount (state : List GoalRow) (u : ℕ) : ℕ :=
  (state.filter fun g => decide (g.userId = u) && g.isActive).length

theorem activeCount_deactivate_self (state : List GoalRow) (u : ℕ) :
    activeCount (deactivateActive state u) u = 0 := by
  rw [activeCount, deactivateActive]
  have : (state.map fun g =>
      if g.userId = u ∧ g.isActive then { g with isActive := false } else g).filter
      (fun g => decide (g.userId = u) && g.isActive) = [] := by
    rw [List.filter_eq_nil_iff]
    intro g hg
    rcases List.mem_map.mp hg with ⟨g₀, hg₀, rfl⟩
    by_cases h : g₀.userId = u ∧ g₀.isActive
    · simp [h]
    · rw [if_neg h]
      rcases not_and_or.mp h with h1 | h1 <;> simp [h1]
  rw [this]
  rfl

theorem activeCount_deactivate_other (state : List GoalRow) (u v : ℕ)
    (hvu : v ≠ u) :
    activeCount (deactivateActive state u) v = activeCount state v := by
  rw [activeCount, deactivateActive, List.filter_map, List.length_map]
  rw [activeCount]
  congr 1
  apply List.filter_congr
  intro g hg
  by_cases h : g.userId = u ∧ g.isActive
  · have : ¬ g.userId = v := by
      rw [h.1]
      exact fun hc => hvu hc.symm
    simp [Function.comp, h, this]
    exact fun hc => hvu hc.symm
  · simp [Function.comp, h]

/-- C4: saving a new Goal deactivates the user's previously active goals and
    activates the new one: afterwards the user has exactly one active Goal;
    the intermediate state (between the `update` and the insert) has zero
    active Goals for that user — so no state of the save, initial,
    intermediate or final, holds two active Goals for any user once the
    initial state satisfies the at-most-one invariant; other users' active
    counts are untouched. -/
theorem saveNewGoal_spec (state : List GoalRow) (u : ℕ) (newId : ℕ)
    (hInv : ∀ v, activeCount state v ≤ 1) :
    activeCount (saveNewGoal state u newId) u = 1
    ∧ activeCount (deactivateActive state u) u = 0
    ∧ (∀ v, v ≠ u →
        activeCount (saveNewGoal state u newId) v = activeCount state v)
    ∧ (∀ v, activeCount (deactivateActive state u) v ≤ 1)
    ∧ (∀ v, activeCount (saveNewGoal state u newId) v ≤ 1) := by
  have happ : ∀ v, activeCount (saveNewGoal state u newId) v
      = activeCount (deactivateActive state u) v
        + activeCount [(⟨newId, u, true⟩ : GoalRow)] v := by
    intro v
    rw [saveNewGoal, activeCount, List.filter_append, List.length_append]
    rfl
  have hself : activeCount (saveNewGoal state u newId) u = 1 := by
    rw [happ, activeCount_deactivate_self]
    simp [activeCount]
  have hother : ∀ v, v ≠ u →
      activeCount (saveNewGoal state u newId) v = activeCount state v := by
    intro v hv
    rw [happ, activeCount_deactivate_other state u v hv]
    have : activeCount [(⟨newId, u, true⟩ : GoalRow)] v = 0 := by
      simp [activeCount, fun hc : v = u => hv hc]
      intro hc
      exact absurd hc.symm hv
    rw [this, Nat.add_zero]
  have hdeact : ∀ v, activeCount (deactivateActive state u) v ≤ 1 := by
    intro v
    by_cases hv : v = u
    · rw [hv, activeCount_deactivate_self]
      norm_num
    · rw [activeCount_deactivate_other state u v hv]
      exact hInv v
  refine ⟨hself, activeCount_deactivate_self state u, hother, hdeact, ?_⟩
  intro v
  by_cases hv : v = u
  · rw [hv, hself]
  · rw [hother v hv]
    exact hInv v

/-- Witness for C4: a user with one active goal saves a new one. -/
theorem saveNewGoal_spec_witness :
    activeCount (saveNewGoal [⟨1, 7, true⟩, ⟨2, 8, true⟩] 7 3) 7 = 1 :=
  (saveNewGoal_spec [⟨1, 7, true⟩, ⟨2, 8, true⟩] 7 3 (by
    intro v
    by_cases h7 : v = 7
    · subst h7; decide
    · by_cases h8 : v = 8
      · subst h8; decide
      · have hz : activeCount [(⟨1, 7, true⟩ : GoalRow), ⟨2, 8, true⟩] v = 0 := by
          simp [activeCount, List.filter, Ne.symm h7, Ne.symm h8]
        rw [hz]
        norm_num)).1

/-! ## Weight Trend Forecaster

Embeds the forecast block of `dashboard` (views.py lines 150-176).  The code
guards on `if goal and goal.start_weight_kg and latest_weight:` — Python
truthiness, so a `start_weight_kg` that is stored but equal to zero also
suppresses the forecast.  `latest_weight` is the user's most recent
`WeightLog` over all dates, so only its existence matters here.
-/

/-- The fields of an active `Goal` the forecast reads. -/
structure GoalM where
  startDate : ℤ
  startWeight : Option ℚ
  kcalTarget : ℚ
  deriving DecidableEq, Repr

theorem scaledAmount_eq (sel : FoodItemM → ℚ) :
    scaledAmount sel = fun it => it.grams / 100 * sel it.food := by
  funext it
  rw [scaledAmount]
  ring

/-- The cumulative logged kcal `Sum("kcal")` over `[s, e]`, with the SQL
    `None` of an empty aggregate read as `0` (`or 0` in the view). -/
def totalKcalInRange (items : List MealItemM) (u : ℕ) (s e : ℤ) : ℚ :=
  ((itemsInRange items u s e).map (scaledAmount fun f => f.kcal100)).sum

/-- The dashboard's weight forecast: `None` unless an active goal with a
    truthy start weight and at least one `WeightLog` exist; otherwise
    `(predicted_weight, weight_change, deficit_kcal)` after rounding. -/
def weightForecast (goal? : Option GoalM) (hasWeightLog : Bool)
    (items : List MealItemM) (u : ℕ) (today : ℤ) : Option (ℚ × ℚ × ℚ) :=
  match goal? with
  | none => none
  | some g =>
    match g.startWeight with
    | none => none
    | some sw =>
      if sw = 0 then none
      else if hasWeightLog = false then none
      else
        let goalStart := max g.startDate (today - 13)
        let totalKcal := totalKcalInRange items u goalStart today
        let daysCount : ℤ := (today - goalStart) + 1
        let expectedKcal := g.kcalTarget * (daysCount : ℚ)
        let deficitKcal := expectedKcal - totalKcal
        let weightChange := deficitKcal / 7700
        let predictedWeight := sw - weightChange
        some (pyRound 2 predictedWeight, pyRound 2 weightChange,
          pyRound 0 deficitKcal)

/-- The deficit exactly as the claim words it: `expected_kcal − cumulative
    logged kcal over [effective_start, today]` with
    `expected_kcal = daily_kcal_target × days_count`,
    `days_count = (today − effective_start).days + 1` and
    `effective_start = max(goal.start_date, window_start)`, the window
    start being `today − 13` (the dashboard's 14-day window). -/
def claimDeficitKcal (g : GoalM) (items : List MealItemM) (u : ℕ)
    (today : ℤ) : ℚ :=
  g.kcalTarget * (((today - max g.startDate (today - 13)) + 1 : ℤ) : ℚ)
    - ((itemsInRange items u (max g.startDate (today - 13)) today).map
        fun it => it.grams / 100 * it.food.kcal100).sum

/-- C3 (amended): the forecast is produced exactly when an active Goal with
    a known **nonzero** start weight exists and at least one WeightLog
    exists; when produced it equals
    `(round2(start_weight − deficit/7700), round2(deficit/7700),
    round0(deficit))` with the deficit as the claim states it. -/
theorem weightForecast_spec (goal? : Option GoalM) (hasLog : Bool)
    (items : List MealItemM) (u : ℕ) (today : ℤ) :
    ((weightForecast goal? hasLog items u today).isSome
      ↔ ∃ g sw, goal? = some g ∧ g.startWeight = some sw ∧ sw ≠ 0
          ∧ hasLog = true)
    ∧ (∀ g sw, goal? = some g → g.startWeight = some sw → sw ≠ 0 →
        hasLog = true →
        weightForecast goal? hasLog items u today
          = some (pyRound 2 (sw - claimDeficitKcal g items u today / 7700),
              pyRound 2 (claimDeficitKcal g items u today / 7700),
              pyRound 0 (claimDeficitKcal g items u today))) := by
  have hval : ∀ g sw, goal? = some g → g.startWeight = some sw → sw ≠ 0 →
      hasLog = true →
      weightForecast goal? hasLog items u today
        = some (pyRound 2 (sw - claimDeficitKcal g items u today / 7700),
            pyRound 2 (claimDeficitKcal g items u today / 7700),
            pyRound 0 (claimDeficitKcal g items u today)) := by
    intro g sw hg hsw hne hlog
    subst hg
    subst hlog
    have hdef : claimDeficitKcal g items u today
        = g.kcalTarget * (((today - max g.startDate (today - 13)) + 1 : ℤ) : ℚ)
          - totalKcalInRange items u (max g.startDate (today - 13)) today := by
      rw [claimDeficitKcal, totalKcalInRange, scaledAmount_eq]
    rw [weightForecast, hsw, hdef]
    simp [hne]
  constructor
  · constructor
    · intro hsome
      cases hgoal : goal? with
      | none => rw [hgoal] at hsome; simp [weightForecast] at hsome
      | some g =>
        rw [hgoal] at hsome
        cases hsw : g.startWeight with
        | none => simp [weightForecast, hsw] at hsome
        | some sw =>
          by_cases hz : sw = 0
          · simp [weightForecast, hsw, hz] at hsome
          · by_cases hl : hasLog = true
            · exact ⟨g, sw, rfl, hsw, hz, hl⟩
            · rw [Bool.not_eq_true] at hl
              simp [weightForecast, hsw, hz, hl] at hsome
    · rintro ⟨g, sw, hg, hsw, hne, hlog⟩
      rw [hval g sw hg hsw hne hlog]
      rfl
  · exact hval

/-- Counterexample to C3 as stated: a user with an active Goal whose start
    weight is recorded as `0` and who has a WeightLog gets **no** forecast —
    Python truthiness of `goal.start_weight_kg` treats the known weight `0`
    as missing, while the claim requires a forecast to be produced. -/
theorem weightForecast_zero_start_weight :
    weightForecast (some ⟨0, some 0, 2000⟩) true [] 0 0 = none := by
  simp [weightForecast]

/-- Witness for C3 at a concrete state: goal started at day 0 with start
    weight 70 kg and a 2000 kcal target; today is day 3; one 100 g item of
    a 500 kcal/100g food was logged on day 1.  Deficit is
    `2000·4 − 500 = 7500`, change `7500/7700` rounds to `0.97`, predicted
    weight `70 − 7500/7700` rounds to `69.03`. -/
theorem weightForecast_spec_witness :
    weightForecast (some ⟨0, some 70, 2000⟩) true
        [⟨0, 1, 100, ⟨500, 0, 0, 0⟩⟩] 0 3
      = some (6903/100, 97/100, 7500) := by
  have h := (weightForecast_spec (some ⟨0, some 70, 2000⟩) true
    [⟨0, 1, 100, ⟨500, 0, 0, 0⟩⟩] 0 3).2 ⟨0, some 70, 2000⟩ 70 rfl rfl
    (by norm_num) rfl
  rw [h]
  have hdef : claimDeficitKcal ⟨0, some 70, 2000⟩
      [⟨0, 1, 100, ⟨500, 0, 0, 0⟩⟩] 0 3 = 7500 := by
    rw [claimDeficitKcal]
    norm_num [itemsInRange, List.filter]
  rw [hdef]
  have hchange : pyRound 2 ((7500 : ℚ) / 7700) = 97/100 := by
    rw [pyRound]
    have hx : (7500 : ℚ) / 7700 * 10 ^ 2 = 7500/77 := by norm_num
    rw [hx, roundHalfEven_of_frac_lt (7500/77) 97 ?_ ?_]
    · norm_num
    · rw [Int.floor_eq_iff]
      norm_num
    · norm_num
  have hpred : pyRound 2 ((70 : ℚ) - 7500 / 7700) = 6903/100 := by
    rw [pyRound]
    have hx : ((70 : ℚ) - 7500 / 7700) * 10 ^ 2 = 531500/77 := by norm_num
    rw [hx, roundHalfEven_of_frac_gt (531500/77) 6902 ?_ ?_]
    · norm_num
    · rw [Int.floor_eq_iff]
      norm_num
    · norm_num
  have hdefr : pyRound 0 ((7500 : ℚ)) = 7500 := by
    rw [pyRound]
    have hx : (7500 : ℚ) * 10 ^ 0 = 7500 := by norm_num
    rw [hx, roundHalfEven_of_frac_lt 7500 7500 ?_ ?_]
    · norm_num
    · rw [Int.floor_eq_iff]
      norm_num
    · norm_num
  rw [hchange, hpred, hdefr]

/-! ## JSON values and Python coercions

A small JSON model for the OpenFoodFacts payloads.  Falsiness and `or`
follow Python semantics; `str()` of containers is abbreviated (its exact
text never influences control flow beyond being non-empty).
-/

/-- A JSON value as decoded by `requests.Response.json()`. -/
inductive Json where
  | null : Json
  | jbool (b : Bool) : Json
  | jnum (q : ℚ) : Json
  | jstr (s : String) : Json
  | jarr (xs : List Json) : Json
  | jobj (fields : List (String × Json)) : Json

/-- Python falsiness of a JSON value. -/
def Json.falsy : Json → Bool
  | .null => true
  | .jbool b => !b
  | .jnum q => q == 0
  | .jstr s => s.isEmpty
  | .jarr xs => xs.isEmpty
  | .jobj fs => fs.isEmpty

/-- `dict.get(k)`: `None` default, only meaningful on objects. -/
def Json.get : Json → String → Option Json
  | .jobj fs, k => fs.lookup k
  | _, _ => none

/-- Python `a or b` over optional JSON values (`None` and falsy fall
    through). -/
def pyOr (a b : Option Json) : Option Json :=
  match a with
  | none => b
  | some v => if v.falsy then b else some v

/-- Python `str()` of a JSON value (container text abbreviated; the code
    only ever reads it for strings, or tests the result for emptiness). -/
def pyStrOf : Json → String
  | .null => "None"
  | .jbool b => cond b "True" "False"
  | .jnum q => toString q
  | .jstr s => s
  | .jarr _ => "[list]"
  | .jobj _ => "[dict]"

/-- `str(x or "")` for an optional JSON value. -/
def pyOrEmptyStr (v : Option Json) : String :=
  match v with
  | none => ""
  | some j => if j.falsy then "" else pyStrOf j

/-- Digit list to a natural number. -/
def digitsVal (cs : List Char) : ℕ :=
  cs.foldl (fun n c => 10 * n + (c.toNat - 48)) 0

/-- Python `float(s)` on plain decimal literals (optional sign, integer and
    fractional digits).  Exponent forms and `inf`/`nan` are outside the
    model and map to `None`; no claim exercises them. -/
def pyFloatOfString (s : String) : Option ℚ :=
  let t := (pyStrip s).data
  let core := match t with
    | '-' :: r => some (true, r)
    | '+' :: r => some (false, r)
    | r => some (false, r)
  match core with
  | none => none
  | some (neg, rest) =>
    let intPart := rest.takeWhile Char.isDigit
    let rest2 := rest.drop intPart.length
    let signed : ℚ → Option ℚ := fun v => some (if neg then -v else v)
    match rest2 with
    | [] =>
      if intPart.isEmpty then none
      else signed (digitsVal intPart)
    | '.' :: fr =>
      if fr.all Char.isDigit && !(intPart.isEmpty && fr.isEmpty) then
        signed ((digitsVal intPart : ℚ) + (digitsVal fr : ℚ) / 10 ^ fr.length)
      else none
    | _ => none

/-- `_to_float` (openfoodfacts.py lines 151-157): `None` and `""` give
    `None`; numbers pass through; strings are parsed, non-numeric text
    gives `None`; booleans coerce as in Python (`float(True) = 1.0`);
    containers raise `TypeError`, which is caught, giving `None`. -/
def toFloat : Option Json → Option ℚ
  | none => none
  | some .null => none
  | some (.jstr s) => if s = "" then none else pyFloatOfString s
  | some (.jnum q) => some q
  | some (.jbool b) => some (cond b 1 0)
  | some (.jarr _) => none
  | some (.jobj _) => none

/-! ## OpenFoodFacts client -/

/-- The `OffProduct` dataclass. -/
structure OffProduct where
  code : String
  name : String
  brand : String
  kcal_100g : Option ℚ
  protein_100g : Option ℚ
  fat_100g : Option ℚ
  carbs_100g : Option ℚ
  deriving DecidableEq, Repr

/-- One upstream HTTP interaction, as seen by `_fetch`/`get_product`:
    timeout, request/HTTP-status error, JSON-decode error, or a decoded
    payload. -/
inductive FetchOutcome where
  | timeout : FetchOutcome
  | reqError : FetchOutcome
  | parseError : FetchOutcome
  | payload (j : Json) : FetchOutcome

/-- The `{"products": []}` object `_fetch` substitutes on failure. -/
def emptyProducts : Json :=
  .jobj [("products", .jarr [])]

/-- `search._fetch` (lines 63-83): every exception — timeout, request
    error, JSON error, anything else — and any non-object payload becomes
    `{"products": []}`. -/
def fetchData : FetchOutcome → Json
  | .payload j =>
    match j with
    | .jobj fs => .jobj fs
    | _ => emptyProducts
  | _ => emptyProducts

/-- Shared field mapping (lines 109-119 and 138-147): resolves
    `nutriments` via `p.get("nutriments") or {}` and builds the record.
    A truthy non-object `nutriments` makes `nutr.get(...)` raise
    `AttributeError`, modelled as `.error`. -/
def buildProduct (code : String) (p : Json) : Except Unit OffProduct :=
  match (pyOr (p.get "nutriments") (some (.jobj []))).getD (.jobj []) with
  | .jobj nfs =>
    .ok { code := code
          name := pyStrip (pyStrOf ((pyOr (pyOr (p.get "product_name")
                    (p.get "generic_name")) (some (.jstr "Без названия"))).getD
                    (.jstr "Без названия")))
          brand := pyStrip (pyOrEmptyStr (p.get "brands"))
          kcal_100g := toFloat ((Json.jobj nfs).get "energy-kcal_100g")
          protein_100g := toFloat ((Json.jobj nfs).get "proteins_100g")
          fat_100g := toFloat ((Json.jobj nfs).get "fat_100g")
          carbs_100g := toFloat ((Json.jobj nfs).get "carbohydrates_100g") }
  | _ => .error ()

/-- The body of `search`'s product loop for one entry (lines 104-120): a
    non-object entry makes `p.get("code")` raise `AttributeError`
    (`.error`); an object whose code is missing or strips to empty is
    skipped (`.ok none`). -/
def parseEntry (p : Json) : Except Unit (Option OffProduct) :=
  match p with
  | .jobj fs =>
    let code := pyStrip (pyOrEmptyStr ((Json.jobj fs).get "code"))
    if code = "" then .ok none
    else
      match buildProduct code (.jobj fs) with
      | .error e => .error e
      | .ok pr => .ok (some pr)
  | _ => .error ()

/-- Folds `parseEntry` over the products list, propagating a raise. -/
def parseEntries : List Json → Except Unit (List OffProduct)
  | [] => .ok []
  | x :: xs =>
    match parseEntry x with
    | .error e => .error e
    | .ok none => parseEntries xs
    | .ok (some pr) =>
      match parseEntries xs with
      | .error e => .error e
      | .ok rest => .ok (pr :: rest)

/-- `data.get("products", []) or []` followed by iteration: a falsy value
    iterates as empty, a list iterates, any truthy non-list raises while
    being iterated (`TypeError`/`AttributeError`). -/
def productsListOf (data : Json) : Except Unit (List Json) :=
  let v := (data.get "products").getD (.jarr [])
  if v.falsy then .ok []
  else
    match v with
    | .jarr xs => .ok xs
    | _ => .error ()

/-- The whole parsing stage of `search` over the chosen payload. -/
def parseProducts (data : Json) : Except Unit (List OffProduct) :=
  match productsListOf data with
  | .error e => .error e
  | .ok xs => parseEntries xs

/-- Line 100: `not (data.get("products") or [])` — the condition for the
    second, unbiased request. -/
def productsEmpty (data : Json) : Bool :=
  match data.get "products" with
  | none => true
  | some v => v.falsy

/-- The payload the product loop runs on: the regionally-biased response,
    or the unbiased one when the first yields zero products. -/
def searchUsedData (o1 o2 : FetchOutcome) : Json :=
  if productsEmpty (fetchData o1) then fetchData o2 else fetchData o1

/-- How the Django cache behaves during one `search` call:
    `available = false` models the guarded `import` failing (`cache = None`);
    `getResult = none` models `cache.get` raising, `some none` a miss,
    `some (some v)` a hit; `setRaises` models `cache.set` raising. -/
structure CacheBehaviour where
  available : Bool
  getResult : Option (Option (List OffProduct))
  setRaises : Bool

/-- A present, healthy cache that misses. -/
def cacheMissOk : CacheBehaviour := ⟨true, some none, false⟩

/-- A present cache whose `get` raises. -/
def cacheGetRaises : CacheBehaviour := ⟨true, none, false⟩

/-- A present cache that misses and whose `set` raises. -/
def cacheSetRaises : CacheBehaviour := ⟨true, some none, true⟩

/-- The guarded `from django.core.cache import cache` failed. -/
def cacheUnavailable : CacheBehaviour := ⟨false, some none, false⟩

/-- `OpenFoodFactsClient.search` (lines 39-124).  Note that only the cache
    *import* sits inside `try/except`; `cache.get` (line 52) and
    `cache.set` (line 123) run unprotected, so their exceptions escape
    `search` (`.error`). -/
def search (cb : CacheBehaviour) (o1 o2 : FetchOutcome) (query : String)
    (limit : ℤ) : Except Unit (List OffProduct) :=
  if pyStrip query = "" then .ok []
  else if cb.available then
    match cb.getResult with
    | none => .error ()
    | some (some v) => .ok v
    | some none =>
      match parseProducts (searchUsedData o1 o2) with
      | .error e => .error e
      | .ok prods => if cb.setRaises then .error () else .ok prods
  else
    match parseProducts (searchUsedData o1 o2) with
    | .error e => .error e
    | .ok prods => .ok prods

/-- `_cache_key` (lines 28-37): the query is stripped and lowercased before
    hashing, and the limit is clamped into `[1, 30]`.  `h` abstracts
    `sha256(...).hexdigest()[:16]` — an arbitrary function of the
    normalized query. -/
def cacheKey (h : String → String) (pre : String) (query : String)
    (limit : ℤ) : String :=
  pre ++ "_v3_" ++ h (pyLower (pyStrip query)) ++ "_"
    ++ toString (min (max limit 1) 30)

/-- The `page_size` put into `base_params` (line 91). -/
def searchPageSize (limit : ℤ) : ℤ :=
  min (max limit 1) 30

/-- Python `data.get("status") != 1` negated: true when the status value
    compares equal to the integer `1` (for JSON scalars, numbers equal to 1
    and `True`). -/
def statusIsOne : Option Json → Bool
  | some (.jnum q) => q == 1
  | some (.jbool b) => b
  | _ => false

/-- `get_product` (lines 126-148): blank code gives `None`; network and
    parse failures propagate (`.error`); non-`1` status gives `None`;
    otherwise the record is built from `data.get("product") or {}`. -/
def getProduct (code : String) (o : FetchOutcome) :
    Except Unit (Option OffProduct) :=
  if pyStrip code = "" then .ok none
  else
    match o with
    | .payload data =>
      match data with
      | .jobj fs =>
        if statusIsOne ((Json.jobj fs).get "status") = false then .ok none
        else
          match (pyOr ((Json.jobj fs).get "product")
              (some (.jobj []))).getD (.jobj []) with
          | .jobj pfs =>
            match buildProduct (pyStrip code) (.jobj pfs) with
            | .error e => .error e
            | .ok pr => .ok (some pr)
          | _ => .error ()
      | _ => .error ()
    | _ => .error ()

/-! ## Food import (views.py `food_import`, lines 219-267) -/

/-- A persisted `FoodItem` row (fields the import touches). -/
structure FoodItemRow where
  name : String
  brand : String
  kcal_per_100g : ℚ
  protein_per_100g : ℚ
  fat_per_100g : ℚ
  carb_per_100g : ℚ
  source : String
  external_id : String
  deriving DecidableEq, Repr

/-- The `defaults` dict of `update_or_create` (lines 249-256): names are
    sliced to 200 characters and each density is `round(x or 0, 2)` —
    a missing density is read as `0` (and a present `0` stays `0`, so
    Python's falsy-`or` and `getD 0` agree). -/
def importedRow (p : OffProduct) : FoodItemRow :=
  { name := pyTake p.name 200
    brand := pyTake p.brand 200
    kcal_per_100g := pyRound 2 (p.kcal_100g.getD 0)
    protein_per_100g := pyRound 2 (p.protein_100g.getD 0)
    fat_per_100g := pyRound 2 (p.fat_100g.getD 0)
    carb_per_100g := pyRound 2 (p.carbs_100g.getD 0)
    source := "openfoodfacts"
    external_id := p.code }

/-- `FoodItem.objects.update_or_create(source=..., external_id=...)`:
    update the row with the matching key, or insert a new one. -/
def upsertFoodItem (state : List FoodItemRow) (p : OffProduct) :
    List FoodItemRow :=
  if state.any (fun r => r.source == "openfoodfacts"
      && r.external_id == p.code) then
    state.map fun r =>
      if r.source == "openfoodfacts" && r.external_id == p.code
      then importedRow p else r
  else state ++ [importedRow p]

/-- The `p` the view works with: `client.get_product(code)` wrapped in
    `try/except` — any exception becomes `None` (lines 230-233). -/
def fetchedProduct (code : String) (o : FetchOutcome) : Option OffProduct :=
  match getProduct code o with
  | .error _ => none
  | .ok v => v

/-- `food_import` (lines 219-267): returns the food-item table after the
    request together with a success flag (`false` = error message and
    redirect, nothing written). -/
def foodImport (state : List FoodItemRow) (codeRaw : String)
    (o : FetchOutcome) : List FoodItemRow × Bool :=
  if pyStrip codeRaw = "" then (state, false)
  else
    match fetchedProduct (pyStrip codeRaw) o with
    | none => (state, false)
    | some p =>
      if p.kcal_100g = none then (state, false)
      else (upsertFoodItem state p, true)

/-- `food_search` (views.py lines 194-216): `results = client.search(...)`
    inside `try/except Exception` — on an exception the page renders with
    empty results and an error message (second component `true`). -/
def foodSearchView (cb : CacheBehaviour) (o1 o2 : FetchOutcome)
    (q : String) : List OffProduct × Bool :=
  match search cb o1 o2 q 10 with
  | .ok r => (r, false)
  | .error _ => ([], true)

/-- C5: the import aborts — failure message, no `FoodItem` created or
    updated — whenever the fetched record is absent, its calorie density is
    undefined, or the single-code fetch itself raised. -/
theorem foodImport_aborts (state : List FoodItemRow) (codeRaw : String)
    (o : FetchOutcome) :
    (fetchedProduct (pyStrip codeRaw) o = none →
      foodImport state codeRaw o = (state, false))
    ∧ (∀ p, fetchedProduct (pyStrip codeRaw) o = some p → p.kcal_100g = none →
      foodImport state codeRaw o = (state, false))
    ∧ (getProduct (pyStrip codeRaw) o = .error () →
      foodImport state codeRaw o = (state, false)) := by
  by_cases hblank : pyStrip codeRaw = ""
  · exact ⟨fun _ => by simp [foodImport, hblank],
      fun p _ _ => by simp [foodImport, hblank],
      fun _ => by simp [foodImport, hblank]⟩
  · refine ⟨?_, ?_, ?_⟩
    · intro hp
      rw [foodImport, if_neg hblank, hp]
    · intro p hp hk
      rw [foodImport, if_neg hblank, hp]
      simp [hk]
    · intro he
      have hp : fetchedProduct (pyStrip codeRaw) o = none := by
        rw [fetchedProduct, he]
      rw [foodImport, if_neg hblank, hp]

/-- Witness for C5: importing code `"123"` while the upstream call times
    out leaves the table unchanged and reports failure. -/
theorem foodImport_aborts_witness :
    foodImport [] "123" .timeout = ([], false) :=
  (foodImport_aborts [] "123" .timeout).1 rfl

theorem pyRound_zero (nd : ℕ) : pyRound nd 0 = 0 := by
  rw [pyRound]
  have h0 : (0 : ℚ) * 10 ^ nd = 0 := by ring
  rw [h0, roundHalfEven_of_frac_lt 0 0 (by simp) (by norm_num)]
  simp

theorem pyTake_length_le (s : String) (n : ℕ) : (pyTake s n).length ≤ n := by
  rw [pyTake]
  show (s.data.take n).length ≤ n
  rw [List.length_take]
  exact min_le_left _ _

/-- C9: when an import persists a fetched record, the stored row has every
    undefined protein/fat/carb density stored as `0` (i.e.
    `round(0, 2) = 0`, not absent), and name and brand are truncated to 200
    characters; the table is updated via the provenance/external-id upsert
    and the call reports success. -/
theorem importedRow_spec (state : List FoodItemRow) (codeRaw : String)
    (o : FetchOutcome) (p : OffProduct)
    (hp : fetchedProduct (pyStrip codeRaw) o = some p)
    (hk : p.kcal_100g ≠ none) :
    foodImport state codeRaw o = (upsertFoodItem state p, true)
    ∧ importedRow p ∈ upsertFoodItem state p
    ∧ (p.protein_100g = none → (importedRow p).protein_per_100g = 0)
    ∧ (p.fat_100g = none → (importedRow p).fat_per_100g = 0)
    ∧ (p.carbs_100g = none → (importedRow p).carb_per_100g = 0)
    ∧ (importedRow p).name = pyTake p.name 200
    ∧ (importedRow p).brand = pyTake p.brand 200
    ∧ (importedRow p).name.length ≤ 200
    ∧ (importedRow p).brand.length ≤ 200 := by
  have hblank : ¬ pyStrip codeRaw = "" := by
    intro hb
    rw [hb] at hp
    have h0 : fetchedProduct "" o = none := rfl
    rw [h0] at hp
    exact Option.noConfusion hp
  refine ⟨?_, ?_, ?_, ?_, ?_, rfl, rfl, pyTake_length_le _ _, pyTake_length_le _ _⟩
  · rw [foodImport, if_neg hblank, hp]
    simp [hk]
  · rw [upsertFoodItem]
    by_cases hin : state.any (fun r => r.source == "openfoodfacts"
        && r.external_id == p.code) = true
    · rw [if_pos hin]
      rcases List.any_eq_true.mp hin with ⟨r, hr, hpr⟩
      exact List.mem_map.mpr ⟨r, hr, by rw [if_pos hpr]⟩
    · rw [if_neg hin]
      simp
  · intro h
    rw [importedRow] at *
    simp [h, pyRound_zero]
  · intro h
    rw [importedRow] at *
    simp [h, pyRound_zero]
  · intro h
    rw [importedRow] at *
    simp [h, pyRound_zero]

/-- Witness for C9: importing code `"1"` with a status-1 payload whose
    product has only a name and a kcal density. -/
theorem importedRow_spec_witness :
    foodImport [] "1" (.payload (.jobj [("status", .jnum 1),
        ("product", .jobj [("product_name", .jstr "X"),
          ("nutriments", .jobj [("energy-kcal_100g", .jnum 100)])])]))
      = (upsertFoodItem [] ⟨"1", "X", "", some 100, none, none, none⟩, true)
    ∧ (importedRow (⟨"1", "X", "", some 100, none, none, none⟩ : OffProduct)).protein_per_100g
      = 0 :=
  ⟨(importedRow_spec [] "1" (.payload (.jobj [("status", .jnum 1),
      ("product", .jobj [("product_name", .jstr "X"),
        ("nutriments", .jobj [("energy-kcal_100g", .jnum 100)])])]))
      ⟨"1", "X", "", some 100, none, none, none⟩ (by decide) (by decide)).1,
   (importedRow_spec [] "1" (.payload (.jobj [("status", .jnum 1),
      ("product", .jobj [("product_name", .jstr "X"),
        ("nutriments", .jobj [("energy-kcal_100g", .jnum 100)])])]))
      ⟨"1", "X", "", some 100, none, none, none⟩ (by decide) (by decide)).2.2.1 rfl⟩

/-- The upstream behaviours the claim calls failures: network error,
    timeout, JSON-decode error, or a decoded payload that is not an
    object. -/
def isFailureOutcome : FetchOutcome → Bool
  | .timeout => true
  | .reqError => true
  | .parseError => true
  | .payload (.jobj _) => false
  | .payload _ => true

/-- C6 (amended): network errors, timeouts, JSON-decode errors and
    non-object payloads each degrade to `{"products": []}` inside `_fetch`,
    and a search whose two requests both fail that way returns the empty
    list without raising.  (Entries that are objects without a code are
    skipped — see the fallback theorem — but a non-object entry inside a
    products array does raise out of `search`; see the counterexample.) -/
theorem search_failure_tolerance :
    (∀ o, isFailureOutcome o = true → fetchData o = emptyProducts)
    ∧ (∀ (o1 o2 : FetchOutcome) (q : String) (l : ℤ),
        isFailureOutcome o1 = true → isFailureOutcome o2 = true →
        search cacheMissOk o1 o2 q l = .ok []) := by
  have hfd : ∀ o, isFailureOutcome o = true → fetchData o = emptyProducts := by
    intro o h
    match o with
    | .timeout => rfl
    | .reqError => rfl
    | .parseError => rfl
    | .payload .null => rfl
    | .payload (.jbool b) => rfl
    | .payload (.jnum q) => rfl
    | .payload (.jstr s) => rfl
    | .payload (.jarr xs) => rfl
    | .payload (.jobj fs) => exact absurd h (by simp [isFailureOutcome])
  refine ⟨hfd, ?_⟩
  intro o1 o2 q l h1 h2
  by_cases hq : pyStrip q = ""
  · simp [search, hq]
  · have hused : searchUsedData o1 o2 = emptyProducts := by
      rw [searchUsedData, hfd o1 h1, hfd o2 h2]
      exact ite_self _
    rw [search, if_neg hq]
    show (match cacheMissOk.getResult with
      | none => Except.error ()
      | some (some v) => Except.ok v
      | some none =>
        match parseProducts (searchUsedData o1 o2) with
        | .error e => Except.error e
        | .ok prods =>
          if cacheMissOk.setRaises then Except.error () else Except.ok prods)
      = Except.ok []
    rw [hused]
    rfl

/-- Witness for C6 at two concrete failures (timeout then request error). -/
theorem search_failure_tolerance_witness :
    search cacheMissOk .timeout .reqError "x" 10 = .ok [] :=
  search_failure_tolerance.2 .timeout .reqError "x" 10 rfl rfl

/-- Counterexample to C6 as stated: a products array containing the
    malformed (non-object) entry `1` makes the parsing loop call
    `p.get("code")` on a non-dict, raising `AttributeError` out of
    `search` instead of degrading to an empty result. -/
theorem search_malformed_entry_raises :
    search cacheMissOk (.payload (.jobj [("products", .jarr [.jnum 1])]))
      (.payload emptyProducts) "test" 10 = .error () := by rfl

/-- C7: with a healthy missing cache, the end-to-end scenario — query
    `"test"`, limit 1, first (regionally biased) response
    `{"products": []}`, second response with one product — returns exactly
    one record with code `"1"`, name `"X"`, brand `"B"` and all four
    densities undefined; the unbiased payload is used exactly when the
    biased one yields zero products; an object entry lacking a code is
    skipped. -/
theorem search_regional_fallback :
    search cacheMissOk (.payload (.jobj [("products", .jarr [])]))
        (.payload (.jobj [("products", .jarr [.jobj [("code", .jstr "1"),
          ("product_name", .jstr "X"), ("brands", .jstr "B"),
          ("nutriments", .jobj [])]])])) "test" 1
      = .ok [⟨"1", "X", "B", none, none, none, none⟩]
    ∧ (∀ o1 o2 : FetchOutcome, productsEmpty (fetchData o1) = false →
        searchUsedData o1 o2 = fetchData o1)
    ∧ (∀ o1 o2 : FetchOutcome, productsEmpty (fetchData o1) = true →
        searchUsedData o1 o2 = fetchData o2)
    ∧ (∀ fs : List (String × Json), fs.lookup "code" = none →
        parseEntry (.jobj fs) = .ok none) := by
  refine ⟨by rfl, ?_, ?_, ?_⟩
  · intro o1 o2 h
    rw [searchUsedData]
    simp [h]
  · intro o1 o2 h
    rw [searchUsedData]
    simp [h]
  · intro fs h
    rw [parseEntry]
    simp only [Json.get, h]
    rfl

/-- Witness for C7: an entry having only a product name is skipped. -/
theorem search_regional_fallback_witness :
    parseEntry (.jobj [("product_name", .jstr "Y")]) = .ok none :=
  search_regional_fallback.2.2.2 [("product_name", .jstr "Y")] rfl

/-- C8 (amended): an exception from `cache.get` or `cache.set` propagates
    out of `search` (it is *not* treated as a miss), because only the
    cache-module import is guarded; an unavailable cache (failed
    cache-module import) behaves exactly like a healthy miss; and request
    handling does not crash because `food_search` catches the exception,
    rendering empty results with an error message. -/
theorem search_cache_failure (o1 o2 : FetchOutcome) (q : String) (l : ℤ)
    (hq : pyStrip q ≠ "") :
    search cacheGetRaises o1 o2 q l = .error ()
    ∧ search cacheSetRaises o1 o2 q l = .error ()
    ∧ search cacheUnavailable o1 o2 q l = search cacheMissOk o1 o2 q l
    ∧ foodSearchView cacheGetRaises o1 o2 q = ([], true) := by
  have hget : ∀ l' : ℤ, search cacheGetRaises o1 o2 q l' = .error () := by
    intro l'
    rw [search, if_neg hq]
    rfl
  refine ⟨hget l, ?_, ?_, ?_⟩
  · cases hpp : parseProducts (searchUsedData o1 o2) with
    | error e =>
      cases e
      simp [search, hq, cacheSetRaises, hpp]
    | ok prods => simp [search, hq, cacheSetRaises, hpp]
  · cases hpp : parseProducts (searchUsedData o1 o2) with
    | error e => simp [search, hq, cacheUnavailable, cacheMissOk, hpp]
    | ok prods => simp [search, hq, cacheUnavailable, cacheMissOk, hpp]
  · rw [foodSearchView, hget 10]

/-- Witness for C8 with a non-blank query and timed-out upstream. -/
theorem search_cache_failure_witness :
    search cacheGetRaises .timeout .timeout "test" 10 = .error () :=
  (search_cache_failure .timeout .timeout "test" 10 (by decide)).1

/-- Counterexample to C8 as stated: the upstream holds one product, yet a
    raising `cache.get` makes `search` raise instead of treating it as a
    miss and returning that upstream-derived result (which a healthy
    missing cache does return). -/
theorem search_cache_get_raises_loses_result :
    search cacheGetRaises (.payload (.jobj [("products", .jarr [.jobj
        [("code", .jstr "1"), ("product_name", .jstr "X"),
         ("brands", .jstr "B"), ("nutriments", .jobj [])]])]))
      (.payload emptyProducts) "test" 10 = .error ()
    ∧ search cacheMissOk (.payload (.jobj [("products", .jarr [.jobj
        [("code", .jstr "1"), ("product_name", .jstr "X"),
         ("brands", .jstr "B"), ("nutriments", .jobj [])]])]))
      (.payload emptyProducts) "test" 10
      = .ok [⟨"1", "X", "B", none, none, none, none⟩] :=
  ⟨by rfl, by rfl⟩

/-- C10: the cache key depends on the query only through
    `strip`-then-`lower` (so it is invariant under leading/trailing
    whitespace and letter case) and on the limit only through
    `min(max(limit, 1), 30)`; the upstream `page_size` equals that same
    clamped value, so limits 30 and 100 share one request shape and one
    cache entry. -/
theorem cacheKey_spec (h : String → String) (pre q q' : String) (l l' : ℤ)
    (hq : pyLower (pyStrip q) = pyLower (pyStrip q'))
    (hl : min (max l 1) 30 = min (max l' 1) 30) :
    cacheKey h pre q l = cacheKey h pre q' l'
    ∧ searchPageSize l = min (max l 1) 30
    ∧ searchPageSize 30 = searchPageSize 100
    ∧ cacheKey h pre q 30 = cacheKey h pre q 100 := by
  refine ⟨?_, rfl, by decide, ?_⟩
  · rw [cacheKey, cacheKey, hq, hl]
  · rw [cacheKey, cacheKey]
    have h30 : min (max (30 : ℤ) 1) 30 = min (max (100 : ℤ) 1) 30 := by decide
    rw [h30]

/-- Witness for C10: `" Tea "` at limit 100 and `"tea"` at limit 30 share
    one cache key. -/
theorem cacheKey_spec_witness :
    cacheKey (fun s => s) "off_search" " Tea " 100
      = cacheKey (fun s => s) "off_search" "tea" 30 :=
  (cacheKey_spec (fun s => s) "off_search" " Tea " "tea" 100 30
    (by decide) (by decide)).1

end NutritionTracker
